import Mathlib

/-!
A shallow embedding of the quart-auth session-authentication layer
(`src/quart_auth/extension.py`, `src/quart_auth/globals.py`,
`src/quart_auth/basic_auth.py`) together with proofs about its token codec,
request-scoped identity handling, response reconciliation and guard
decorators.

Modelling conventions:
* The token serializer is the external `itsdangerous.URLSafeTimedSerializer`
  (not part of this repository's sources); it is modelled from the spec as an
  idealized keyed MAC: a signature is the tuple of the signing inputs, so two
  signatures agree exactly when secret, salt, payload and timestamp agree.
* Outbound tokens are represented structurally (`Token`); the inbound,
  string-level behaviour of `QuartAuth.load_token` (whose wire format belongs
  to the external serializer) is abstracted as a function parameter
  `loadTok : String → Option String` wherever the source calls
  `self.load_token` on a string taken from a header or cookie.
* Python's per-request/per-websocket context objects are modelled by an
  explicit `Ctx` record; in-place mutation of the memoized user object is
  modelled by writing the updated user back into the attribute bag.
* Exceptions are modelled with `Except` or dedicated result inductives.
-/

namespace QuartAuthSpec

/-- The pending action attached to an identity
(`Action` enum, extension.py lines 41-45). -/
inductive Action
| DELETE
| PASS
| WRITE
| WRITE_PERMANENT
deriving DecidableEq, Repr

/-- Transport mode of a `QuartAuth` instance (`"cookie" | "bearer"`). -/
inductive Mode
| cookie
| bearer
deriving DecidableEq, Repr

/-- Modelled from the spec: the signature produced by the external
`itsdangerous` serializer with a sha512-keyed signer (`_AuthSerializer`,
extension.py lines 48-50).  The serializer itself is not part of the
repository sources, so its MAC is idealized: the signature is exactly the
tuple of signing inputs, hence two signatures agree iff secret, salt,
payload and timestamp all agree. -/
structure Sig where
  secret : String
  salt : String
  payload : Option String
  timestamp : Nat
deriving DecidableEq, Repr

/-- Modelled from the spec: a signed, timestamped token as produced by
`URLSafeTimedSerializer.dumps` — a payload, an issue timestamp, and a
signature over both. -/
structure Token where
  payload : Option String
  timestamp : Nat
  sig : Sig
deriving DecidableEq, Repr

/-- The two decode failure kinds of the token layer (spec section 4.1):
`BadSignature` / `SignatureExpired` in the source. -/
inductive DecodeFailure
| SignatureInvalid
| Expired
deriving DecidableEq, Repr

/-- Modelled from the spec: `serializer.dumps(payload)` at time `now`. -/
def encode (secret salt : String) (payload : Option String) (now : Nat) : Token :=
  { payload := payload, timestamp := now, sig := ⟨secret, salt, payload, now⟩ }

/-- Modelled from the spec: `serializer.loads(token, max_age)` at time `now`.
The signature is recomputed from the verifier's secret/salt and compared with
the embedded one; with a `max_age`, the token is expired when its age
(`now - timestamp`, clamped at zero as a negative age never exceeds a
non-negative `max_age`) exceeds `max_age`. -/
def decode (secret salt : String) (t : Token) (max_age : Option Nat) (now : Nat) :
    Except DecodeFailure (Option String) :=
  if t.sig = (⟨secret, salt, t.payload, t.timestamp⟩ : Sig) then
    match max_age with
    | some d => if d < now - t.timestamp then Except.error DecodeFailure.Expired
                else Except.ok t.payload
    | none => Except.ok t.payload
  else
    Except.error DecodeFailure.SignatureInvalid

/-- A user identity (`AuthUser`, extension.py lines 53-73):
an optional auth id plus the pending action. -/
structure AuthUser where
  auth_id : Option String
  action : Action
deriving DecidableEq, Repr

/-- `AuthUser.__init__` with its default `action = Action.PASS`. -/
def AuthUser.new (auth_id : Option String) : AuthUser :=
  { auth_id := auth_id, action := Action.PASS }

/-- `AuthUser.is_authenticated` (extension.py lines 68-70). -/
def AuthUser.is_authenticated (u : AuthUser) : Bool :=
  u.auth_id.isSome

/-- The configuration attributes of a `QuartAuth` instance after `init_app`
has resolved all defaults (extension.py lines 76-136). -/
structure QuartAuth where
  attribute_name : String
  cookie_domain : Option String
  cookie_name : String
  cookie_path : String
  cookie_http_only : Bool
  cookie_samesite : String
  cookie_secure : Bool
  duration : Nat
  mode : Mode
  salt : String
  singleton : Bool
deriving DecidableEq, Repr

/-- `QuartAuth.dump_token` (extension.py lines 195-200): sign `auth_id` with
the app's secret key and the instance's salt. -/
def QuartAuth.dump_token (ext : QuartAuth) (secret_key : String) (auth_id : Option String)
    (now : Nat) : Token :=
  encode secret_key ext.salt auth_id now

/-- `QuartAuth.load_token` (extension.py lines 202-210): verify with the
instance's salt and `max_age = duration`; both `BadSignature` and
`SignatureExpired` collapse to `none`. -/
def QuartAuth.load_token (ext : QuartAuth) (secret_key : String) (t : Token) (now : Nat) :
    Option String :=
  match decode secret_key ext.salt t (some ext.duration) now with
  | Except.ok a => a
  | Except.error _ => none

/-- Association-list lookup, modelling dict/attribute access. -/
def alistGet {α : Type} (l : List (String × α)) (k : String) : Option α :=
  (l.find? (fun p => p.1 == k)).map Prod.snd

/-- Association-list update, modelling `setattr` (later bindings shadow). -/
def alistSet {α : Type} (l : List (String × α)) (k : String) (v : α) :
    List (String × α) :=
  (k, v) :: l

/-- Werkzeug's parsed `Authorization` object as read from
`request.authorization` / `websocket.authorization`. -/
structure AuthorizationHeader where
  type : String
  username : String
  password : String
deriving DecidableEq, Repr

/-- The per-request / per-websocket context visible to the extension:
the context flags, the inbound cookies and headers, the parsed Basic
credentials and the mutable attribute bags used for memoization. -/
structure Ctx where
  hasRequestContext : Bool
  hasWebsocketContext : Bool
  requestCookies : List (String × String)
  requestHeaders : List (String × String)
  websocketCookies : List (String × String)
  websocketHeaders : List (String × String)
  requestAuthorization : Option AuthorizationHeader
  websocketAuthorization : Option AuthorizationHeader
  requestAttrs : List (String × AuthUser)
  websocketAttrs : List (String × AuthUser)
deriving DecidableEq, Repr

/-- `QuartAuth.load_cookie` (extension.py lines 169-179).  A missing cookie
key raises `KeyError`, caught as `None`; with neither context active the
local `token` keeps its initial `""` value and is decoded. -/
def QuartAuth.load_cookie (ext : QuartAuth) (loadTok : String → Option String)
    (ctx : Ctx) : Option String :=
  if ctx.hasRequestContext then
    match alistGet ctx.requestCookies ext.cookie_name with
    | none => none
    | some token => loadTok token
  else if ctx.hasWebsocketContext then
    match alistGet ctx.websocketCookies ext.cookie_name with
    | none => none
    | some token => loadTok token
  else
    loadTok ""

/-- Python's `s[:n]` (code-point slicing), on the character list of the
string. -/
def py_take (s : String) (n : Nat) : String :=
  String.mk (s.data.take n)

/-- Python's `s[n:]` (code-point slicing), on the character list of the
string. -/
def py_drop (s : String) (n : Nat) : String :=
  String.mk (s.data.drop n)

/-- Python's `s.lower()` restricted to ASCII case mapping (the only
characters compared here are ASCII). -/
def py_lower (s : String) : String :=
  String.mk (s.data.map Char.toLower)

/-- Python's `s.strip()`: remove leading and trailing whitespace. -/
def py_strip (s : String) : String :=
  String.mk (((s.data.dropWhile Char.isWhitespace).reverse.dropWhile
    Char.isWhitespace).reverse)

/-- The raw `Authorization` header read in `QuartAuth.load_bearer`
(extension.py lines 182-188); a missing header raises `KeyError`,
caught as `None`. -/
def bearer_raw_header (ctx : Ctx) : Option String :=
  if ctx.hasRequestContext then alistGet ctx.requestHeaders "Authorization"
  else if ctx.hasWebsocketContext then alistGet ctx.websocketHeaders "Authorization"
  else none

/-- `QuartAuth.load_bearer` (extension.py lines 181-193):
`raw[:6].lower()` is compared with `"bearer"`; on a match the rest of the
header, stripped of surrounding whitespace, is decoded via
`self.load_token` (the `loadTok` parameter). -/
def load_bearer (loadTok : String → Option String) (ctx : Ctx) : Option String :=
  match bearer_raw_header ctx with
  | none => none
  | some raw =>
    if py_lower (py_take raw 6) ≠ "bearer" then none
    else loadTok (py_strip (py_drop raw 6))

/-- `QuartAuth.resolve_user` (extension.py lines 161-167). -/
def QuartAuth.resolve_user (ext : QuartAuth) (loadTok : String → Option String)
    (ctx : Ctx) : AuthUser :=
  if ext.mode = Mode.cookie then AuthUser.new (ext.load_cookie loadTok ctx)
  else AuthUser.new (load_bearer loadTok ctx)

/-- `QuartAuth.load_user` (extension.py lines 272-294): memoize the resolved
user on the request (resp. websocket) context attribute bag; with neither
context active return a fresh anonymous user. -/
def QuartAuth.load_user (ext : QuartAuth) (loadTok : String → Option String)
    (ctx : Ctx) : AuthUser × Ctx :=
  if ctx.hasRequestContext then
    match alistGet ctx.requestAttrs ext.attribute_name with
    | some u => (u, ctx)
    | none =>
      let u := ext.resolve_user loadTok ctx
      (u, { ctx with requestAttrs := alistSet ctx.requestAttrs ext.attribute_name u })
  else if ctx.hasWebsocketContext then
    match alistGet ctx.websocketAttrs ext.attribute_name with
    | some u => (u, ctx)
    | none =>
      let u := ext.resolve_user loadTok ctx
      (u, { ctx with websocketAttrs := alistSet ctx.websocketAttrs ext.attribute_name u })
  else
    (AuthUser.new none, ctx)

/-- `login_user` (globals.py lines 69-85 composed with
`QuartAuth.login_user`, extension.py lines 296-300): set the action from
`remember`, then memoize the user — but only inside a request context;
otherwise `RuntimeError`. -/
def login_user (ext : QuartAuth) (user : AuthUser) (remember : Bool) (ctx : Ctx) :
    Except String Ctx :=
  let user' := { user with action := if remember then Action.WRITE_PERMANENT else Action.WRITE }
  if ctx.hasRequestContext then
    Except.ok { ctx with requestAttrs := alistSet ctx.requestAttrs ext.attribute_name user' }
  else
    Except.error "Cannot login unless within a request context"

/-- `logout_user` (globals.py lines 88-90 composed with
`QuartAuth.logout_user`, extension.py lines 302-308): memoize a fresh
anonymous user carrying `Action.DELETE` — only inside a request context;
otherwise `RuntimeError`. -/
def logout_user (ext : QuartAuth) (ctx : Ctx) : Except String Ctx :=
  let user : AuthUser := { auth_id := none, action := Action.DELETE }
  if ctx.hasRequestContext then
    Except.ok { ctx with requestAttrs := alistSet ctx.requestAttrs ext.attribute_name user }
  else
    Except.error "Cannot logout unless within a request context"

/-- `renew_login` (globals.py lines 93-95):
`current_user.action = Action.WRITE_PERMANENT`.  The proxy resolves
`load_user()`; the returned object is mutated in place, so the update is
persisted exactly when the object came from a context attribute bag —
outside both contexts a transient anonymous user is mutated and dropped.
No context error is raised on this path. -/
def renew_login (ext : QuartAuth) (loadTok : String → Option String) (ctx : Ctx) : Ctx :=
  let p := ext.load_user loadTok ctx
  let user := { p.1 with action := Action.WRITE_PERMANENT }
  if p.2.hasRequestContext then
    { p.2 with requestAttrs := alistSet p.2.requestAttrs ext.attribute_name user }
  else if p.2.hasWebsocketContext then
    { p.2 with websocketAttrs := alistSet p.2.websocketAttrs ext.attribute_name user }
  else
    p.2

/-- The value carried by a Set-Cookie response header: a deletion header
carries the empty value, a write carries a token. -/
inductive CookieValue
| empty
| token (t : Token)
deriving DecidableEq, Repr

/-- One Set-Cookie response header with the attributes quart-auth sets. -/
structure SetCookieHeader where
  name : String
  value : CookieValue
  domain : Option String
  path : String
  max_age : Option Nat
  http_only : Bool
  secure : Bool
  samesite : String
deriving DecidableEq, Repr

/-- The outgoing response: its status code plus the list of Set-Cookie
headers appended to it. -/
structure Response where
  status_code : Nat
  cookie_headers : List SetCookieHeader
deriving DecidableEq, Repr

/-- `Response.set_cookie`: append a Set-Cookie header. -/
def Response.set_cookie (r : Response) (name : String) (value : CookieValue)
    (domain : Option String) (max_age : Option Nat) (http_only : Bool)
    (path : String) (secure : Bool) (samesite : String) : Response :=
  { r with cookie_headers := r.cookie_headers ++
      [{ name := name, value := value, domain := domain, path := path,
         max_age := max_age, http_only := http_only, secure := secure,
         samesite := samesite }] }

/-- `Response.delete_cookie` (werkzeug): a Set-Cookie header with the empty
value and `max_age = 0`, immediately expiring the cookie. -/
def Response.delete_cookie (r : Response) (name : String) (domain : Option String)
    (http_only : Bool) (path : String) (secure : Bool) (samesite : String) : Response :=
  r.set_cookie name CookieValue.empty domain (some 0) http_only path secure samesite

/-- The warning issued when a non-`PASS` action is reconciled in bearer
mode (extension.py lines 216 and 257). -/
def bearer_mode_warning : String :=
  "Login/logout/renew have no affect in bearer mode"

/-- `QuartAuth.after_request` (extension.py lines 212-251).  Returns the
(possibly mutated) response, the context after `load_user`, and the list of
warnings issued. -/
def QuartAuth.after_request (ext : QuartAuth) (secret_key : String)
    (loadTok : String → Option String) (now : Nat) (request_is_secure : Bool)
    (ctx : Ctx) (response : Response) : Response × Ctx × List String :=
  let p := ext.load_user loadTok ctx
  let user := p.1
  if ext.mode = Mode.bearer then
    (response, p.2, if user.action ≠ Action.PASS then [bearer_mode_warning] else [])
  else if user.action = Action.DELETE then
    (response.delete_cookie ext.cookie_name ext.cookie_domain ext.cookie_http_only
       ext.cookie_path ext.cookie_secure ext.cookie_samesite, p.2, [])
  else if user.action = Action.WRITE ∨ user.action = Action.WRITE_PERMANENT then
    let max_age := if user.action = Action.WRITE_PERMANENT then some ext.duration else none
    let w1 := if ext.cookie_secure ∧ ¬request_is_secure
              then ["Secure cookies will be ignored on insecure requests"] else []
    let w2 := if ext.cookie_samesite = "Strict"
                 ∧ 300 ≤ response.status_code ∧ response.status_code < 400
              then ["Strict samesite cookies will be ignored on redirects"] else []
    let token := ext.dump_token secret_key user.auth_id now
    (response.set_cookie ext.cookie_name (CookieValue.token token) ext.cookie_domain
       max_age ext.cookie_http_only ext.cookie_path ext.cookie_secure ext.cookie_samesite,
     p.2, w1 ++ w2)
  else
    (response, p.2, [])

/-- `QuartAuth.after_websocket` (extension.py lines 253-270).  Returns the
(never mutated) optional response, the context after `load_user`, and the
warnings issued. -/
def QuartAuth.after_websocket (ext : QuartAuth) (loadTok : String → Option String)
    (ctx : Ctx) (response : Option Response) :
    Option Response × Ctx × List String :=
  let p := ext.load_user loadTok ctx
  let user := p.1
  if ext.mode = Mode.bearer then
    (response, p.2, if user.action ≠ Action.PASS then [bearer_mode_warning] else [])
  else if user.action ≠ Action.PASS then
    (response, p.2,
      [match response with
       | some _ => "The auth cookie may not be set by the client. " ++
                   "Cookies are unreliably set on websocket responses."
       | none => "The auth cookie cannot be set by the client."])
  else
    (response, p.2, [])

/-- A raised werkzeug `Unauthorized`-family exception: what matters to the
claims is the optional WWW-Authenticate challenge attached to it. -/
structure HTTPUnauthorized where
  www_authenticate : Option String
deriving DecidableEq, Repr

/-- `Unauthorized` (extension.py lines 37-38): a plain werkzeug
`Unauthorized`, no challenge attached. -/
def Unauthorized : HTTPUnauthorized := { www_authenticate := none }

/-- `UnauthorizedBasicAuth` (basic_auth.py lines 18-21): constructed with
`WWWAuthenticate("basic")`, so it carries a Basic challenge. -/
def UnauthorizedBasicAuth : HTTPUnauthorized := { www_authenticate := some "basic" }

/-- `login_required` (globals.py lines 39-66): resolve the current user via
`load_user`; raise `Unauthorized` when not authenticated, otherwise run the
wrapped handler (which may itself read/mutate the context) and return its
result unchanged. -/
def login_required {α : Type} (ext : QuartAuth) (loadTok : String → Option String)
    (handler : Ctx → α × Ctx) (ctx : Ctx) : Except HTTPUnauthorized α × Ctx :=
  let p := ext.load_user loadTok ctx
  if p.1.is_authenticated then
    let r := handler p.2
    (Except.ok r.1, r.2)
  else
    (Except.error Unauthorized, p.2)

/-- `secrets.compare_digest` on the configured password: a constant-time
string comparison; timing behaviour is not representable here, only its
boolean result (equality). -/
def compare_digest (a b : String) : Bool :=
  a == b

/-- The credentials object consulted by `basic_auth_required`
(basic_auth.py lines 53-58): `request.authorization` in a request context,
`websocket.authorization` in a websocket context, otherwise the
`RuntimeError` branch (modelled by the outer `none`). -/
def context_authorization (ctx : Ctx) : Option (Option AuthorizationHeader) :=
  if ctx.hasRequestContext then some ctx.requestAuthorization
  else if ctx.hasWebsocketContext then some ctx.websocketAuthorization
  else none

/-- Outcome of a `basic_auth_required`-wrapped handler invocation. -/
inductive BasicAuthOutcome (α : Type)
| runtime_error
| unauthorized_basic (e : HTTPUnauthorized)
| handler_result (a : α)
deriving DecidableEq, Repr

/-- `basic_auth_required` (basic_auth.py lines 50-70): outside both contexts
`RuntimeError`; with credentials present, of scheme `"basic"`, whose
username equals the configured one and whose password passes
`compare_digest` against the configured one, run the handler; in every
other case raise `UnauthorizedBasicAuth`. -/
def basic_auth_required {α : Type} (username_cfg password_cfg : String)
    (ctx : Ctx) (handler : α) : BasicAuthOutcome α :=
  match context_authorization ctx with
  | none => BasicAuthOutcome.runtime_error
  | some auth =>
    match auth with
    | some a =>
      if a.type = "basic" ∧ a.username = username_cfg
         ∧ compare_digest a.password password_cfg = true then
        BasicAuthOutcome.handler_result handler
      else
        BasicAuthOutcome.unauthorized_basic UnauthorizedBasicAuth
    | none => BasicAuthOutcome.unauthorized_basic UnauthorizedBasicAuth

/-- The serializer class attribute of a `QuartAuth` instance: the class
default `_AuthSerializer` or a custom subclass. -/
inductive SerializerClass
| authSerializer
| custom (id : Nat)
deriving DecidableEq, Repr

/-- The user class attribute of a `QuartAuth` instance: the class default
`AuthUser` or a custom subclass. -/
inductive UserClass
| authUser
| custom (id : Nat)
deriving DecidableEq, Repr

/-- The two pluggable-class attributes of a constructed instance. -/
structure PluggableClasses where
  serializer_class : SerializerClass
  user_class : Option UserClass
deriving DecidableEq, Repr

/-- The pluggable-class handling of `QuartAuth.__init__`
(extension.py lines 76-78 and 109-112): class-level defaults
`serializer_class = _AuthSerializer`, `user_class = AuthUser`, then
`if serializer_class is not None: self.serializer_class = serializer_class`
and `if serializer_class is not None: self.user_class = user_class` —
the second guard tests `serializer_class`, not `user_class`. -/
def init_pluggable (serializer_class : Option SerializerClass)
    (user_class : Option UserClass) : PluggableClasses :=
  let s := match serializer_class with
    | some sc => sc
    | none => SerializerClass.authSerializer
  let u := match serializer_class with
    | some _ => user_class
    | none => some UserClass.authUser
  { serializer_class := s, user_class := u }

/-- `sum(ext.singleton for ext in app.extensions["QUART_AUTH"])`
(extension.py line 151). -/
def singleton_count (exts : List QuartAuth) : Nat :=
  exts.countP (fun e => e.singleton)

/-- The collision warning condition checked before registration
(extension.py lines 138-147). -/
def collision_warning (exts : List QuartAuth) (ext : QuartAuth) : Bool :=
  exts.any (fun e => e.attribute_name == ext.attribute_name
    || e.cookie_name == ext.cookie_name || e.salt == ext.salt)

/-- The registration step of `QuartAuth.init_app`
(extension.py lines 149-154): append the instance to the app's
`"QUART_AUTH"` extension list, then raise `RuntimeError` when strictly more
than two registered instances have `singleton = True`. -/
def init_app_register (exts : List QuartAuth) (ext : QuartAuth) :
    Except String (List QuartAuth) :=
  let exts' := exts ++ [ext]
  if 2 < singleton_count exts' then
    Except.error "Multiple singleton extensions, please see docs about multiple auth users"
  else
    Except.ok exts'

/-- `_find_extension` (globals.py lines 27-36): the first registered
instance with `singleton = True`; `none` models the `RuntimeError` raised
when there is no singleton instance. -/
def find_extension (exts : List QuartAuth) : Option QuartAuth :=
  exts.find? (fun e => e.singleton)

/-- `_load_user` (globals.py lines 20-21), the ambient `current_user`
accessor: resolve via the first singleton extension. -/
def find_and_load_user (exts : List QuartAuth) (loadTok : String → Option String)
    (ctx : Ctx) : Option (AuthUser × Ctx) :=
  match find_extension exts with
  | none => none
  | some ext => some (ext.load_user loadTok ctx)

/-- Whether an `Except` computation completed without raising. -/
def succeeded {ε α : Type} : Except ε α → Bool
| Except.ok _ => true
| Except.error _ => false

/-- A sample configuration mirroring the `DEFAULTS` table
(extension.py lines 21-34). -/
def extSample : QuartAuth :=
  { attribute_name := "_quart_auth_user"
    cookie_domain := none
    cookie_name := "QUART_AUTH"
    cookie_path := "/"
    cookie_http_only := true
    cookie_samesite := "Lax"
    cookie_secure := true
    duration := 365 * 24 * 60 * 60
    mode := Mode.cookie
    salt := "quart auth salt"
    singleton := true }

/-- A second sample configuration with a distinct salt (as in
tests/test_multiple.py). -/
def extStaff : QuartAuth :=
  { extSample with attribute_name := "staff", cookie_name := "STAFF",
                   salt := "staff salt", singleton := false }

/-- The sample configuration switched to bearer mode. -/
def extBearer : QuartAuth :=
  { extSample with mode := Mode.bearer }

/-- An empty context with neither a request nor a websocket active. -/
def ctxNone : Ctx :=
  { hasRequestContext := false
    hasWebsocketContext := false
    requestCookies := []
    requestHeaders := []
    websocketCookies := []
    websocketHeaders := []
    requestAuthorization := none
    websocketAuthorization := none
    requestAttrs := []
    websocketAttrs := [] }

/-- A context with only a websocket connection active. -/
def ctxWsOnly : Ctx :=
  { ctxNone with hasWebsocketContext := true }

/-- A context with a request active and no memoized user. -/
def ctxReq : Ctx :=
  { ctxNone with hasRequestContext := true }

/-- A sample string-level token decoder: exactly the string "TOK" is a
valid token, carrying auth id "alice". -/
def loadTokSample : String → Option String :=
  fun s => if s = "TOK" then some "alice" else none

/-- A request context whose Authorization header uses the bearer scheme
with no whitespace between the scheme and the token. -/
def ctxBearerNoSpace : Ctx :=
  { ctxReq with requestHeaders := [("Authorization", "bearerTOK")] }

/-- A sample handler returning a constant value, leaving the context
unchanged. -/
def handlerSample : Ctx → Nat × Ctx :=
  fun c => (7, c)

/-- A request context memoizing an authenticated user with a `PASS`
action. -/
def ctxReqMem : Ctx :=
  { ctxReq with requestAttrs := [("_quart_auth_user", AuthUser.new (some "bob"))] }

/-- A request context memoizing an authenticated user with a
`WRITE_PERMANENT` action (as after `login_user(user, remember=True)`). -/
def ctxReqMemWrite : Ctx :=
  { ctxReq with requestAttrs :=
      [("_quart_auth_user", { auth_id := some "bob", action := Action.WRITE_PERMANENT })] }

/-- A request context carrying correct Basic credentials. -/
def ctxBasicOk : Ctx :=
  { ctxReq with
    requestAuthorization := some (AuthorizationHeader.mk "basic" "admin" "pw") }

/-- A sample outgoing response with no cookie headers. -/
def responseSample : Response :=
  { status_code := 200, cookie_headers := [] }

/-- C1: round-trip of the token codec — for every identity string `a` and
every instance, a token produced by `dump_token` at time `tEnc` is loaded
back by `load_token` to exactly `a` at any time `tDec` within the
configured duration of encoding. -/
theorem load_token_dump_token_round_trip (ext : QuartAuth) (secret a : String)
    (tEnc tDec : Nat) (h : tDec ≤ tEnc + ext.duration) :
    ext.load_token secret (ext.dump_token secret (some a) tEnc) tDec = some a := by
  have hnot : ¬ ext.duration < tDec - tEnc := by omega
  simp [QuartAuth.load_token, QuartAuth.dump_token, encode, decode, hnot]

/-- Witness for the C1 theorem at a concrete instance and concrete times. -/
theorem load_token_dump_token_round_trip_witness :
    3 ≤ 1 + extSample.duration ∧
    extSample.load_token "app secret" (extSample.dump_token "app secret" (some "alice") 1) 3
      = some "alice" :=
  ⟨by decide, load_token_dump_token_round_trip extSample "app secret" "alice" 1 3 (by decide)⟩

/-- C8: cross-salt isolation — a token dumped under one instance's salt
fails to load under an instance with any different salt, even with the same
secret, at every pair of times. -/
theorem cross_salt_isolation (ext1 ext2 : QuartAuth) (secret : String)
    (a : Option String) (tEnc tDec : Nat) (hne : ext1.salt ≠ ext2.salt) :
    ext2.load_token secret (ext1.dump_token secret a tEnc) tDec = none := by
  have hsig : ((⟨secret, ext1.salt, a, tEnc⟩ : Sig)
      = (⟨secret, ext2.salt, a, tEnc⟩ : Sig)) = False := by
    simp only [eq_iff_iff, iff_false]
    intro hcontra
    exact hne (congrArg Sig.salt hcontra)
  simp [QuartAuth.load_token, QuartAuth.dump_token, encode, decode, hsig]

/-- Witness for the C8 theorem: the default salt versus the staff salt. -/
theorem cross_salt_isolation_witness :
    extSample.salt ≠ extStaff.salt ∧
    extStaff.load_token "app secret" (extSample.dump_token "app secret" (some "alice") 0) 5
      = none :=
  ⟨by decide, cross_salt_isolation extSample extStaff "app secret" (some "alice") 0 5 (by decide)⟩

/-- C9: constructor postcondition on the pluggable classes — with a
`serializer_class` argument the `user_class` attribute becomes exactly the
`user_class` argument (hence `None` when that argument is omitted), while
a `user_class` argument without a `serializer_class` is ignored and the
class default `AuthUser` remains. -/
theorem init_pluggable_user_class (sc : SerializerClass) (uc : Option UserClass) :
    (init_pluggable (some sc) uc).user_class = uc ∧
    (init_pluggable none uc).user_class = some UserClass.authUser :=
  ⟨rfl, rfl⟩

/-- Helper: `find_extension` returns the earliest registered instance with
the singleton flag set. -/
theorem find_extension_first_singleton (l1 : List QuartAuth) (e : QuartAuth)
    (l2 : List QuartAuth) (hs : e.singleton = true)
    (hfirst : ∀ e1 ∈ l1, e1.singleton = false) :
    find_extension (l1 ++ e :: l2) = some e := by
  induction l1 with
  | nil =>
    simp [find_extension, List.find?, hs]
  | cons a t ih =>
    have ha : a.singleton = false := hfirst a (List.mem_cons_self a t)
    simp only [List.cons_append, find_extension, List.find?]
    rw [ha]
    exact ih (fun e1 he1 => hfirst e1 (List.mem_cons_of_mem a he1))

/-- C10: the `init_app` singleton check — registration fails with the
multiple-singleton `RuntimeError` exactly when, after appending the new
instance, strictly more than two registered instances have
`singleton = True` (so two singletons register fine), and the ambient
current-user accessor resolves via the earliest registered singleton
instance. -/
theorem init_app_singleton_registration (exts : List QuartAuth) (ext : QuartAuth)
    (loadTok : String → Option String) (ctx : Ctx) :
    (succeeded (init_app_register exts ext) = true
      ↔ singleton_count (exts ++ [ext]) ≤ 2) ∧
    (∀ (l1 : List QuartAuth) (e : QuartAuth) (l2 : List QuartAuth),
      e.singleton = true → (∀ e1 ∈ l1, e1.singleton = false) →
      find_and_load_user (l1 ++ e :: l2) loadTok ctx
        = some (e.load_user loadTok ctx)) := by
  constructor
  · unfold init_app_register
    by_cases hcond : 2 < singleton_count (exts ++ [ext])
    · simp only [hcond, if_true, succeeded]
      exact iff_of_false (by simp) (by omega)
    · simp only [hcond, if_false, succeeded]
      exact iff_of_true (by trivial) (by omega)
  · intro l1 e l2 hs hfirst
    unfold find_and_load_user
    rw [find_extension_first_singleton l1 e l2 hs hfirst]

/-- Witness for the C10 theorem: a non-singleton followed by a singleton
instance registers without error, and the accessor resolves via the
singleton. -/
theorem init_app_singleton_registration_witness :
    succeeded (init_app_register [extStaff] extSample) = true ∧
    find_and_load_user [extStaff, extSample] loadTokSample ctxNone =
      some (extSample.load_user loadTokSample ctxNone) := by
  have h := init_app_singleton_registration [extStaff] extSample loadTokSample ctxNone
  have hfirst : ∀ e1 ∈ [extStaff], e1.singleton = false := by
    intro e1 he1
    rw [List.mem_singleton] at he1
    subst he1
    rfl
  exact ⟨h.1.mpr (by decide), h.2 [extStaff] extSample [] rfl hfirst⟩

/-- C3 counterexample: inside an active websocket connection scope (so
inside an active request/connection scope), `login_user` raises the context
`RuntimeError` instead of performing its mutation. -/
theorem login_user_websocket_scope_error :
    ctxWsOnly.hasWebsocketContext = true ∧
    login_user extSample (AuthUser.new (some "alice")) false ctxWsOnly =
      Except.error "Cannot login unless within a request context" :=
  ⟨rfl, rfl⟩

/-- C3 amended: `login_user` and `logout_user` raise the context
`RuntimeError` exactly when invoked outside a *request* context — an active
websocket connection scope does not count — and inside a request context
they perform their mutation without raising; `renew_login` raises no
context error: outside both scopes it silently has no effect, and in a
request context with a memoized user it marks that user
`WRITE_PERMANENT`. -/
theorem mutation_context_errors (ext : QuartAuth) (loadTok : String → Option String)
    (u : AuthUser) (remember : Bool) (ctx : Ctx) :
    (succeeded (login_user ext u remember ctx) = ctx.hasRequestContext) ∧
    (succeeded (logout_user ext ctx) = ctx.hasRequestContext) ∧
    (ctx.hasRequestContext = false → ctx.hasWebsocketContext = false →
      renew_login ext loadTok ctx = ctx) ∧
    (∀ uMem, ctx.hasRequestContext = true →
      alistGet ctx.requestAttrs ext.attribute_name = some uMem →
      renew_login ext loadTok ctx =
        { ctx with requestAttrs := (alistSet ctx.requestAttrs ext.attribute_name
            ({ uMem with action := Action.WRITE_PERMANENT })) }) := by
  refine ⟨?_, ?_, ?_, ?_⟩
  · unfold login_user
    cases hr : ctx.hasRequestContext <;> simp [hr, succeeded]
  · unfold logout_user
    cases hr : ctx.hasRequestContext <;> simp [hr, succeeded]
  · intro hr hw
    unfold renew_login QuartAuth.load_user
    simp [hr, hw]
  · intro uMem hr hmem
    unfold renew_login QuartAuth.load_user
    simp [hr, hmem]

/-- Witness for the C3 amended theorem: in a request context with a
memoized user, login succeeds and renew marks the memoized user
permanent. -/
theorem mutation_context_errors_witness :
    succeeded (login_user extSample (AuthUser.new (some "alice")) false ctxReqMem) = true ∧
    renew_login extSample loadTokSample ctxReqMem =
      { ctxReqMem with requestAttrs := (alistSet ctxReqMem.requestAttrs
          extSample.attribute_name
          ({ AuthUser.new (some "bob") with action := Action.WRITE_PERMANENT })) } := by
  have h := mutation_context_errors extSample loadTokSample (AuthUser.new (some "alice"))
    false ctxReqMem
  exact ⟨by rw [h.1]; rfl, h.2.2.2 (AuthUser.new (some "bob")) rfl rfl⟩

/-- C4 counterexample: with the Authorization header `"bearerTOK"` — the
scheme token followed directly by the token, with no whitespace — the
resolved identity is not anonymous: the remainder is decoded and yields an
auth id, contradicting the claim that such headers resolve to anonymous. -/
theorem bearer_without_whitespace_not_anonymous :
    py_lower (py_take "bearerTOK" 6) = "bearer" ∧
    (py_drop "bearerTOK" 6).data.head? = some 'T' ∧
    'T'.isWhitespace = false ∧
    load_bearer loadTokSample ctxBearerNoSpace = some "alice" := by
  refine ⟨by decide, by decide, by decide, by decide⟩

/-- C4 amended: in bearer mode the Authorization header is read from the
request or websocket; if it is absent, or its first six characters
lower-cased are not exactly `"bearer"` (no whitespace separator is
required after the scheme), the identity is anonymous; otherwise the
remainder of the header, stripped of surrounding whitespace, is decoded as
a token, a decode failure again yielding anonymous — never an error. -/
theorem load_bearer_resolution (loadTok : String → Option String) (ctx : Ctx) :
    (bearer_raw_header ctx = none → load_bearer loadTok ctx = none) ∧
    (∀ raw, bearer_raw_header ctx = some raw →
      (py_lower (py_take raw 6) ≠ "bearer" → load_bearer loadTok ctx = none) ∧
      (py_lower (py_take raw 6) = "bearer" →
        load_bearer loadTok ctx = loadTok (py_strip (py_drop raw 6))) ∧
      (py_lower (py_take raw 6) = "bearer" →
        loadTok (py_strip (py_drop raw 6)) = none →
        load_bearer loadTok ctx = none)) := by
  constructor
  · intro h
    simp [load_bearer, h]
  · intro raw hraw
    refine ⟨?_, ?_, ?_⟩
    · intro hne
      simp [load_bearer, hraw, hne]
    · intro heq
      simp [load_bearer, hraw, heq]
    · intro heq hfail
      simp [load_bearer, hraw, heq, hfail]

/-- Witness for the C4 amended theorem at the concrete no-whitespace
header. -/
theorem load_bearer_resolution_witness :
    bearer_raw_header ctxBearerNoSpace = some "bearerTOK" ∧
    py_lower (py_take "bearerTOK" 6) = "bearer" ∧
    load_bearer loadTokSample ctxBearerNoSpace
      = loadTokSample (py_strip (py_drop "bearerTOK" 6)) := by
  refine ⟨by decide, by decide, ?_⟩
  exact (((load_bearer_resolution loadTokSample ctxBearerNoSpace).2 "bearerTOK"
    (by decide)).2.1) (by decide)

/-- C5: `login_required` — when the resolved identity is anonymous the
wrapper raises `Unauthorized`, leaves the post-resolution context untouched
and never invokes the handler (its outcome is independent of the handler);
when authenticated it invokes the handler and passes its result through
unchanged. -/
theorem login_required_guard {α : Type} (ext : QuartAuth)
    (loadTok : String → Option String) (handler : Ctx → α × Ctx) (ctx : Ctx) :
    ((ext.load_user loadTok ctx).1.auth_id = none →
      login_required ext loadTok handler ctx
          = (Except.error Unauthorized, (ext.load_user loadTok ctx).2)
        ∧ ∀ handler2 : Ctx → α × Ctx,
            login_required ext loadTok handler ctx
              = login_required ext loadTok handler2 ctx) ∧
    (∀ a, (ext.load_user loadTok ctx).1.auth_id = some a →
      login_required ext loadTok handler ctx
        = (Except.ok (handler (ext.load_user loadTok ctx).2).1,
           (handler (ext.load_user loadTok ctx).2).2)) := by
  constructor
  · intro hanon
    constructor
    · unfold login_required AuthUser.is_authenticated
      simp [hanon]
    · intro handler2
      unfold login_required AuthUser.is_authenticated
      simp [hanon]
  · intro a ha
    unfold login_required AuthUser.is_authenticated
    simp [ha]

/-- Witness for the C5 theorem: a request with no credential resolves to an
anonymous identity and the guard short-circuits with `Unauthorized`. -/
theorem login_required_guard_witness :
    (extSample.load_user loadTokSample ctxReq).1.auth_id = none ∧
    login_required extSample loadTokSample handlerSample ctxReq
      = (Except.error Unauthorized, (extSample.load_user loadTokSample ctxReq).2) := by
  refine ⟨by decide, ?_⟩
  exact ((login_required_guard extSample loadTokSample handlerSample ctxReq).1
    (by decide)).1

/-- C6: `basic_auth_required` — inside a request or websocket context the
handler runs exactly when credentials are present with scheme `"basic"`,
a username equal to the configured one and a password passing the
constant-time comparison against the configured one; in every other case
`UnauthorizedBasicAuth` is raised, which carries the
`WWW-Authenticate: Basic` challenge that the token-based `Unauthorized`
lacks. -/
theorem basic_auth_required_guard {α : Type} (username_cfg password_cfg : String)
    (ctx : Ctx) (handler : α)
    (hctx : ctx.hasRequestContext = true ∨ ctx.hasWebsocketContext = true) :
    (basic_auth_required username_cfg password_cfg ctx handler
        = BasicAuthOutcome.handler_result handler
      ↔ ∃ a, context_authorization ctx = some (some a) ∧ a.type = "basic"
          ∧ a.username = username_cfg
          ∧ compare_digest a.password password_cfg = true) ∧
    ((¬ ∃ a, context_authorization ctx = some (some a) ∧ a.type = "basic"
          ∧ a.username = username_cfg
          ∧ compare_digest a.password password_cfg = true) →
      basic_auth_required username_cfg password_cfg ctx handler
        = BasicAuthOutcome.unauthorized_basic UnauthorizedBasicAuth) ∧
    UnauthorizedBasicAuth.www_authenticate = some "basic" ∧
    Unauthorized.www_authenticate = none := by
  have hco : ∃ o, context_authorization ctx = some o := by
    unfold context_authorization
    cases hr : ctx.hasRequestContext
    · rcases hctx with h | h
      · rw [h] at hr
        cases hr
      · simp [h]
    · simp
  obtain ⟨o, ho⟩ := hco
  cases o with
  | none =>
    have hmain : basic_auth_required username_cfg password_cfg ctx handler
        = BasicAuthOutcome.unauthorized_basic UnauthorizedBasicAuth := by
      unfold basic_auth_required
      rw [ho]
    refine ⟨?_, fun _ => hmain, rfl, rfl⟩
    rw [hmain]
    constructor
    · intro hres
      exact absurd hres (by simp)
    · rintro ⟨b, hb, _⟩
      rw [ho] at hb
      exact Option.noConfusion (Option.some.inj hb)
  | some a =>
    by_cases hcond : a.type = "basic" ∧ a.username = username_cfg
        ∧ compare_digest a.password password_cfg = true
    · have hmain : basic_auth_required username_cfg password_cfg ctx handler
          = BasicAuthOutcome.handler_result handler := by
        unfold basic_auth_required
        rw [ho]
        exact if_pos hcond
      refine ⟨?_, ?_, rfl, rfl⟩
      · rw [hmain]
        exact iff_of_true rfl ⟨a, ho, hcond.1, hcond.2.1, hcond.2.2⟩
      · intro hnot
        exact absurd ⟨a, ho, hcond.1, hcond.2.1, hcond.2.2⟩ hnot
    · have hmain : basic_auth_required username_cfg password_cfg ctx handler
          = BasicAuthOutcome.unauthorized_basic UnauthorizedBasicAuth := by
        unfold basic_auth_required
        rw [ho]
        exact if_neg hcond
      refine ⟨?_, fun _ => hmain, rfl, rfl⟩
      rw [hmain]
      constructor
      · intro hres
        exact absurd hres (by simp)
      · rintro ⟨b, hb, hbt, hbu, hbp⟩
        rw [ho] at hb
        obtain rfl : a = b := Option.some.inj (Option.some.inj hb)
        exact absurd ⟨hbt, hbu, hbp⟩ hcond

/-- Witness for the C6 theorem: matching Basic credentials run the
handler. -/
theorem basic_auth_required_guard_witness :
    (ctxBasicOk.hasRequestContext = true ∨ ctxBasicOk.hasWebsocketContext = true) ∧
    basic_auth_required "admin" "pw" ctxBasicOk (7 : Nat)
      = BasicAuthOutcome.handler_result 7 := by
  have h := basic_auth_required_guard "admin" "pw" ctxBasicOk (7 : Nat) (Or.inl rfl)
  refine ⟨Or.inl rfl, ?_⟩
  exact h.1.mpr ⟨AuthorizationHeader.mk "basic" "admin" "pw", by decide, rfl, rfl, by decide⟩

/-- C7: bearer-mode reconciliation never mutates the response — both
`after_request` and `after_websocket` return the response unchanged
(no Set-Cookie or any other header added), and issue the non-fatal bearer
warning exactly when the memoized action is not `PASS`; the request still
completes. -/
theorem bearer_mode_never_mutates_response (ext : QuartAuth) (secret_key : String)
    (loadTok : String → Option String) (now : Nat) (request_is_secure : Bool)
    (ctx ctxWs : Ctx) (response : Response) (wsResponse : Option Response)
    (hmode : ext.mode = Mode.bearer) :
    ((ext.after_request secret_key loadTok now request_is_secure ctx response).1
      = response) ∧
    ((ext.after_websocket loadTok ctxWs wsResponse).1 = wsResponse) ∧
    ((ext.after_request secret_key loadTok now request_is_secure ctx response).2.2 =
      if (ext.load_user loadTok ctx).1.action ≠ Action.PASS
      then [bearer_mode_warning] else []) ∧
    ((ext.after_websocket loadTok ctxWs wsResponse).2.2 =
      if (ext.load_user loadTok ctxWs).1.action ≠ Action.PASS
      then [bearer_mode_warning] else []) := by
  unfold QuartAuth.after_request QuartAuth.after_websocket
  simp [hmode]

/-- Witness for the C7 theorem: a bearer-mode instance with a memoized
identity leaves a concrete response untouched. -/
theorem bearer_mode_never_mutates_response_witness :
    extBearer.mode = Mode.bearer ∧
    (extBearer.after_request "app secret" loadTokSample 0 true ctxReqMemWrite
      responseSample).1 = responseSample := by
  have h := bearer_mode_never_mutates_response extBearer "app secret" loadTokSample 0 true
    ctxReqMemWrite ctxWsOnly responseSample none rfl
  exact ⟨rfl, h.1⟩

/-- C2: cookie-mode reconciliation — with the identity memoized on the
request context, `after_request` leaves the response unchanged on `PASS`,
appends the clearing directive (empty value, max-age zero) for the
configured cookie name, domain and path on `DELETE`, appends a Set-Cookie
directive carrying a freshly dumped token for the current auth id with no
max-age on `WRITE`, and the same directive with max-age equal to the
configured duration on `WRITE_PERMANENT`. -/
theorem after_request_cookie_actions (ext : QuartAuth) (secret_key : String)
    (loadTok : String → Option String) (now : Nat) (request_is_secure : Bool)
    (ctx : Ctx) (response : Response) (u : AuthUser)
    (hmode : ext.mode = Mode.cookie)
    (hreq : ctx.hasRequestContext = true)
    (hmem : alistGet ctx.requestAttrs ext.attribute_name = some u) :
    (ext.after_request secret_key loadTok now request_is_secure ctx response).1 =
      (match u.action with
       | Action.PASS => response
       | Action.DELETE =>
         { response with cookie_headers := (response.cookie_headers ++
             [SetCookieHeader.mk ext.cookie_name CookieValue.empty ext.cookie_domain
               ext.cookie_path (some 0) ext.cookie_http_only ext.cookie_secure
               ext.cookie_samesite]) }
       | Action.WRITE =>
         { response with cookie_headers := (response.cookie_headers ++
             [SetCookieHeader.mk ext.cookie_name
               (CookieValue.token (ext.dump_token secret_key u.auth_id now))
               ext.cookie_domain ext.cookie_path none ext.cookie_http_only
               ext.cookie_secure ext.cookie_samesite]) }
       | Action.WRITE_PERMANENT =>
         { response with cookie_headers := (response.cookie_headers ++
             [SetCookieHeader.mk ext.cookie_name
               (CookieValue.token (ext.dump_token secret_key u.auth_id now))
               ext.cookie_domain ext.cookie_path (some ext.duration)
               ext.cookie_http_only ext.cookie_secure ext.cookie_samesite]) }) := by
  have hload : ext.load_user loadTok ctx = (u, ctx) := by
    unfold QuartAuth.load_user
    simp [hreq, hmem]
  unfold QuartAuth.after_request
  rw [hload]
  cases hu : u.action <;>
    simp [hmode, hu, Response.delete_cookie, Response.set_cookie]

/-- Witness for the C2 theorem: a memoized `WRITE_PERMANENT` identity
yields the permanent Set-Cookie directive on a concrete response. -/
theorem after_request_cookie_actions_witness :
    extSample.mode = Mode.cookie ∧
    ctxReqMemWrite.hasRequestContext = true ∧
    alistGet ctxReqMemWrite.requestAttrs extSample.attribute_name
      = some (AuthUser.mk (some "bob") Action.WRITE_PERMANENT) ∧
    (extSample.after_request "app secret" loadTokSample 0 true ctxReqMemWrite
      responseSample).1 =
      { responseSample with cookie_headers := (responseSample.cookie_headers ++
          [SetCookieHeader.mk extSample.cookie_name
            (CookieValue.token (extSample.dump_token "app secret" (some "bob") 0))
            extSample.cookie_domain extSample.cookie_path (some extSample.duration)
            extSample.cookie_http_only extSample.cookie_secure
            extSample.cookie_samesite]) } := by
  refine ⟨rfl, rfl, by decide, ?_⟩
  exact after_request_cookie_actions extSample "app secret" loadTokSample 0 true
    ctxReqMemWrite responseSample (AuthUser.mk (some "bob") Action.WRITE_PERMANENT)
    rfl rfl (by decide)

end QuartAuthSpec
